import Mathlib

/-!
Verification of the client-side customization scripts of the
`ecommerce_integrations` repository fragment: the batch-price dialog with its
realtime progress handler (Item list view), the Sales Order
`shopify_coupon_code` field handler, and the Shopify Coupon Code
"Update Coupon" button callback.

The JavaScript callbacks are shallowly embedded as pure Lean functions over
explicit state.  JavaScript field access with `||` defaulting is modelled with
`Option` and `Option.getD`; JavaScript string truthiness is emptiness of the
defaulted string; `Math.round((progress / total) * 100)` is modelled exactly
over the integers as `(200 * progress + total) / (2 * total)` (round half up),
which is proved equal to Mathlib's `round` of the rational
`progress / total * 100`.
-/

/-- A progress payload delivered on the `shopify_price_batch` realtime
channel, as read by the batch-price progress handler.  Each field may be
absent (`none`), mirroring `data.total`, `data.progress`, `data.current`,
`data.status`, `data.result`, `data.message` in the source, each of which
is defaulted with `|| 0` or `|| ''`. -/
structure EventData where
  total : Option Nat
  progress : Option Nat
  current : Option String
  status : Option String
  result : Option String
  message : Option String
deriving DecidableEq

/-- The state owned by one open batch-price dialog: the in-memory `messages`
array, whether the realtime handler is still registered on the
`shopify_price_batch` channel, and the last HTML rendered into the
`progress_html` field (`none` before the first event). -/
structure DialogState where
  messages : List String
  listenerOn : Bool
  progress_html : Option String
deriving DecidableEq

/-- `const pct = total ? Math.round((progress / total) * 100) : 0;`
translated exactly: for `total ≠ 0`, round-half-up of the rational
`progress / total * 100`, computed as `(200 * progress + total) / (2 * total)`
in natural-number division. -/
def pctOf (progress total : Nat) : Nat :=
  if total = 0 then 0 else (200 * progress + total) / (2 * total)

/-- Closing tail of the progress HTML template (everything after the joined
message list). -/
def renderPost : String :=
  "</div>\n+                    </div>"

/-- Leading part of the progress HTML template (everything before the joined
message list), with `progress`, `total`, the escaped `current`, `status` and
`pct` interpolated as in the source template literal. -/
def renderPre (progress total : Nat) (escapedCurrent status : String) (pct : Nat) : String :=
  "\n+                    <div style=\"margin: 10px 0;\">\n+                        <div><strong>"
    ++ toString progress ++ "/" ++ toString total ++ "</strong> — "
    ++ escapedCurrent ++ " — " ++ status
    ++ "</div>\n+                        <div style=\"background:#f1f1f1;border-radius:3px;height:10px;width:100%;margin-top:6px;\">\n+                            <div style=\"width:"
    ++ toString pct
    ++ "%;background:#5b8ef8;height:100%;border-radius:3px\"></div>\n+                        </div>\n+                        <div style=\"margin-top:8px;max-height:200px;overflow:auto;padding:6px;background:#fff;border:1px solid #eee;border-radius:4px\">"

/-- The full progress HTML template: leading part, then
`messages.join('<br>')`, then the closing tail. -/
def renderHtml (progress total : Nat) (escapedCurrent status : String) (pct : Nat)
    (messages : List String) : String :=
  renderPre progress total escapedCurrent status pct
    ++ String.intercalate "<br>" messages ++ renderPost

/-- The realtime progress `handler` of the batch-price dialog, as a state
transformer.  `esc` stands for the framework utility
`frappe.utils.escape_html`, which this code calls but does not define.
`data = none` models a falsy payload (`if (!data) return;`).  On a payload:
default the six fields, push `RESULT: escaped message` onto `messages` when
the message string is non-empty, recompute `pct`, re-render the template into
`progress_html`, and deregister from the channel when
`status === 'done' || progress >= total`. -/
def handler (esc : String → String) (s : DialogState) (data : Option EventData) : DialogState :=
  match data with
  | none => s
  | some d =>
    let total := d.total.getD 0
    let progress := d.progress.getD 0
    let current := d.current.getD ""
    let status := d.status.getD ""
    let result := d.result.getD ""
    let message := d.message.getD ""
    let messages :=
      if message = "" then s.messages
      else s.messages ++ [result.toUpper ++ ": " ++ esc message]
    let pct := pctOf progress total
    let html := renderHtml progress total (esc current) status pct messages
    let listenerOn :=
      if status = "done" ∨ total ≤ progress then false else s.listenerOn
    { messages := messages, listenerOn := listenerOn, progress_html := some html }

/-- External events a live batch-price dialog reacts to: delivery of a
payload on the realtime channel, or the dialog being hidden (`d.onhide`). -/
inductive DialogEvent where
  | receive : Option EventData → DialogEvent
  | close : DialogEvent
deriving DecidableEq

/-- One step of the dialog: a received payload runs `handler` only while the
handler is still registered on the channel (`frappe.realtime.on`/`off`), and
hiding the dialog runs `d.onhide`, which deregisters the handler. -/
def dialogStep (esc : String → String) (s : DialogState) (e : DialogEvent) : DialogState :=
  match e with
  | DialogEvent.receive data => if s.listenerOn then handler esc s data else s
  | DialogEvent.close => { s with listenerOn := false }

/-- A remote procedure invocation issued through `frappe.call`: the dotted
method path and the `args` record as key/value pairs. -/
structure RemoteCall where
  method : String
  args : List (String × String)
deriving DecidableEq

/-- Method path of the batch price update background job. -/
def batch_update_method : String :=
  "ecommerce_integrations.shopify.product.batch_update_prices_from_csv"

/-- The dialog's `primary_action`: read the `csv` field, return without
calling anything when it is falsy, otherwise issue exactly one
`frappe.call` to the batch-update method with `{ csv: csv }`.  The result is
the list of remote calls made by one invocation. -/
def primary_action (csv : String) : List RemoteCall :=
  if csv = "" then []
  else [{ method := batch_update_method, args := [("csv", csv)] }]

/-- The two Sales Order form fields this script touches. -/
structure SalesOrderForm where
  shopify_coupon_code : String
  additional_discount_percentage : ℚ
deriving DecidableEq

/-- The `message` payload of the percent-value lookup response:
`percent_value` may be absent (it is defaulted with `|| 0`). -/
structure PercentMessage where
  percent_value : Option ℚ
deriving DecidableEq

/-- A `frappe.call` response `r` as read by the percent-value lookup
callback: `r.message` may be falsy. -/
structure PercentResponse where
  message : Option PercentMessage
deriving DecidableEq

/-- Method path of the coupon percent-value lookup. -/
def percent_value_method : String :=
  "ecommerce_integrations.shopify.coupon.get_shopify_coupon_code_percent_value"

/-- The lookup's `callback`: when `r.message` is truthy, write
`r.message.percent_value || 0` into `additional_discount_percentage`;
otherwise leave the form untouched. -/
def percent_callback (frm : SalesOrderForm) (r : PercentResponse) : SalesOrderForm :=
  match r.message with
  | some m => { frm with additional_discount_percentage := m.percent_value.getD 0 }
  | none => frm

/-- The Sales Order `shopify_coupon_code` field handler: a truthy coupon code
issues the percent-value lookup (whose eventual response `r` is applied by
`percent_callback`); a falsy one resets `additional_discount_percentage` to 0
and makes no call.  Returns the resulting form and the list of remote calls
made. -/
def shopify_coupon_code_changed (frm : SalesOrderForm) (r : PercentResponse) :
    SalesOrderForm × List RemoteCall :=
  if frm.shopify_coupon_code = "" then
    ({ frm with additional_discount_percentage := 0 }, [])
  else
    (percent_callback frm r,
      [{ method := percent_value_method,
         args := [("coupon_code", frm.shopify_coupon_code)] }])

/-- The `message` payload of the Update Coupon response: an optional
`status` label and an optional `error` string. -/
structure UpdateMessage where
  status : Option String
  error : Option String
deriving DecidableEq

/-- A `frappe.call` response as read by the Update Coupon callback. -/
structure UpdateResponse where
  message : Option UpdateMessage
deriving DecidableEq

/-- What the Update Coupon callback displays: either the plain
`frappe.msgprint` info text, or the red error box with its message text. -/
inductive ShownMessage where
  | info : String → ShownMessage
  | errorBox : String → ShownMessage
deriving DecidableEq

/-- The generic fallback error text of the Update Coupon callback. -/
def genericCouponError : String := "Failed to update coupons."

/-- The Update Coupon `callback`: success exactly when `r.message` is truthy
and `r.message.status === "success"`; otherwise show the error box with
`r.message && r.message.error ? r.message.error : 'Failed to update
coupons.'`. -/
def update_coupon_callback (r : UpdateResponse) : ShownMessage :=
  match r.message with
  | some m =>
    if m.status = some "success" then ShownMessage.info "Coupon updated."
    else
      ShownMessage.errorBox
        (match m.error with
         | some e => if e = "" then genericCouponError else e
         | none => genericCouponError)
  | none => ShownMessage.errorBox genericCouponError

/-- The truthy specific error string of an Update Coupon response, when one
is present: `some e` exactly when `r.message && r.message.error` is truthy. -/
def specificError (r : UpdateResponse) : Option String :=
  r.message.bind fun m => m.error.bind fun e => if e = "" then none else some e

/-- The percentage the JavaScript computes agrees with exact round-half-up of
the rational `progress / total * 100` whenever `total` is nonzero. -/
lemma pctOf_eq_round (p t : ℕ) (ht : 0 < t) :
    (pctOf p t : ℤ) = round ((p : ℚ) / (t : ℚ) * 100) := by
  have htQ : (t : ℚ) ≠ 0 := by exact_mod_cast ht.ne'
  have hx : (p : ℚ) / (t : ℚ) * 100 + 1 / 2
      = ((200 * p + t : ℕ) : ℚ) / ((2 * t : ℕ) : ℚ) := by
    push_cast
    field_simp
    ring
  have hnn : (0 : ℚ) ≤ ((200 * p + t : ℕ) : ℚ) / ((2 * t : ℕ) : ℚ) := by
    positivity
  rw [round_eq, hx, ← Int.natCast_floor_eq_floor hnn, Nat.floor_div_eq_div]
  simp [pctOf, ht.ne']

/-- One `handler` step only ever appends to the message list. -/
lemma handler_messages_append (esc : String → String) (s : DialogState)
    (data : Option EventData) :
    ∃ rest, (handler esc s data).messages = s.messages ++ rest := by
  match data with
  | none => exact ⟨[], by simp [handler]⟩
  | some d =>
    by_cases hm : d.message.getD "" = ""
    · exact ⟨[], by simp [handler, hm]⟩
    · exact ⟨[(d.result.getD "").toUpper ++ ": " ++ esc (d.message.getD "")],
        by simp [handler, hm]⟩

/-- C1: for every progress event, the percentage the handler renders equals
`round(progress / total * 100)` when the (defaulted) total is positive, and
equals 0 otherwise; the handler renders the template with exactly this
percentage. -/
theorem displayed_pct_is_rounded_ratio (esc : String → String) (s : DialogState)
    (d : EventData) :
    (handler esc s (some d)).progress_html =
      some (renderHtml (d.progress.getD 0) (d.total.getD 0) (esc (d.current.getD ""))
        (d.status.getD "") (pctOf (d.progress.getD 0) (d.total.getD 0))
        ((handler esc s (some d)).messages))
    ∧ (0 < d.total.getD 0 →
        (pctOf (d.progress.getD 0) (d.total.getD 0) : ℤ)
          = round ((d.progress.getD 0 : ℚ) / (d.total.getD 0 : ℚ) * 100))
    ∧ (d.total.getD 0 = 0 → pctOf (d.progress.getD 0) (d.total.getD 0) = 0) := by
  refine ⟨?_, fun ht => pctOf_eq_round _ _ ht, fun ht => by simp [pctOf, ht]⟩
  by_cases hm : d.message.getD "" = "" <;> simp [handler, hm]

/-- C1 witness: a concrete event with progress 1 of total 3 renders 33%. -/
theorem displayed_pct_is_rounded_ratio_checked :
    (0 < 3 ∧ (pctOf 1 3 : ℤ) = round ((1 : ℚ) / (3 : ℚ) * 100)) ∧
      (pctOf 1 3 = 33) := by
  refine ⟨⟨by decide, ?_⟩, by decide⟩
  exact (displayed_pct_is_rounded_ratio id ⟨[], true, none⟩
    ⟨some 3, some 1, none, none, none, none⟩).2.1 (by decide)

/-- C3: every progress event whose status field is the terminal value
`'done'` makes the handler deregister itself from the realtime channel. -/
theorem done_status_deregisters (esc : String → String) (s : DialogState)
    (d : EventData) (h : d.status.getD "" = "done") :
    (handler esc s (some d)).listenerOn = false := by
  simp [handler, h]

/-- C3 witness: a concrete mid-run event carrying status `done`. -/
theorem done_status_deregisters_checked :
    (handler id ⟨[], true, none⟩
      (some ⟨some 5, some 2, some "ITEM-1", some "done", some "ok", none⟩)).listenerOn
      = false :=
  done_status_deregisters id ⟨[], true, none⟩
    ⟨some 5, some 2, some "ITEM-1", some "done", some "ok", none⟩ rfl

/-- C9: an event in which the progress and total fields are both absent or
zero deregisters the handler (defaulted progress `0` satisfies
`progress >= total` at `0`), whatever the status field says. -/
theorem zero_fields_deregister (esc : String → String) (s : DialogState)
    (d : EventData) (hp : d.progress.getD 0 = 0) (ht : d.total.getD 0 = 0) :
    (handler esc s (some d)).listenerOn = false := by
  simp [handler, hp, ht]

/-- C9 witness: an event with no progress or total field and a
non-terminal status still removes the listener. -/
theorem zero_fields_deregister_checked :
    (handler id ⟨[], true, none⟩
      (some ⟨none, none, none, some "running", none, some "starting"⟩)).listenerOn
      = false :=
  zero_fields_deregister id ⟨[], true, none⟩
    ⟨none, none, none, some "running", none, some "starting"⟩ rfl rfl

/-- C7: every received event appends the (escaped, result-prefixed) message
exactly when the message string is non-empty, leaves the list unchanged when
it is empty, and in both cases re-renders the template into the
progress HTML field. -/
theorem handler_appends_message_and_rerenders (esc : String → String)
    (s : DialogState) (d : EventData) :
    (d.message.getD "" ≠ "" →
      (handler esc s (some d)).messages =
        s.messages ++ [(d.result.getD "").toUpper ++ ": " ++ esc (d.message.getD "")])
    ∧ (d.message.getD "" = "" → (handler esc s (some d)).messages = s.messages)
    ∧ (handler esc s (some d)).progress_html =
        some (renderHtml (d.progress.getD 0) (d.total.getD 0) (esc (d.current.getD ""))
          (d.status.getD "") (pctOf (d.progress.getD 0) (d.total.getD 0))
          ((handler esc s (some d)).messages)) := by
  refine ⟨fun hm => by simp [handler, hm], fun hm => by simp [handler, hm], ?_⟩
  by_cases hm : d.message.getD "" = "" <;> simp [handler, hm]

/-- C7 witness: an event with a message appends one entry; an event without
one leaves the list unchanged but still renders. -/
theorem handler_appends_message_and_rerenders_checked :
    ((handler id ⟨["A: x"], true, none⟩
        (some ⟨some 4, some 2, none, none, some "ok", some "hi"⟩)).messages
      = ["A: x", String.toUpper "ok" ++ ": " ++ "hi"])
    ∧ (handler id ⟨["A: x"], true, none⟩
        (some ⟨some 4, some 2, none, none, some "ok", none⟩)).messages
      = ["A: x"] := by
  constructor
  · exact (handler_appends_message_and_rerenders id ⟨["A: x"], true, none⟩
      ⟨some 4, some 2, none, none, some "ok", some "hi"⟩).1 (by decide)
  · exact (handler_appends_message_and_rerenders id ⟨["A: x"], true, none⟩
      ⟨some 4, some 2, none, none, some "ok", none⟩).2.1 rfl

/-- C10: over any sequence of received payloads the message list grows
monotonically (earlier entries are preserved in order as a prefix), and each
rendered progress HTML contains the joined accumulated message list. -/
theorem messages_monotone_and_all_rendered (esc : String → String)
    (s : DialogState) (evs : List (Option EventData)) (d : EventData) :
    (∃ rest, (evs.foldl (handler esc) s).messages = s.messages ++ rest)
    ∧ ∃ pre post, (handler esc s (some d)).progress_html =
        some (pre ++ String.intercalate "<br>" ((handler esc s (some d)).messages) ++ post) := by
  constructor
  · induction evs generalizing s with
    | nil => exact ⟨[], by simp⟩
    | cons e evs ih =>
      obtain ⟨r1, h1⟩ := handler_messages_append esc s e
      obtain ⟨r2, h2⟩ := ih (handler esc s e)
      exact ⟨r1 ++ r2, by simp [h2, h1]⟩
  · refine ⟨renderPre (d.progress.getD 0) (d.total.getD 0) (esc (d.current.getD ""))
      (d.status.getD "") (pctOf (d.progress.getD 0) (d.total.getD 0)), renderPost, ?_⟩
    by_cases hm : d.message.getD "" = "" <;>
      simp [handler, hm, renderHtml, String.append_assoc]

/-- C2: the registered listener is removed only by the completion condition
of a received payload (`status === 'done' || progress >= total`) or by the
dialog being hidden; no other event removes it. -/
theorem listener_removed_only_on_completion_or_close (esc : String → String)
    (s : DialogState) (e : DialogEvent) (hOn : s.listenerOn = true)
    (hOff : (dialogStep esc s e).listenerOn = false) :
    e = DialogEvent.close ∨
      ∃ d, e = DialogEvent.receive (some d) ∧
        (d.status.getD "" = "done" ∨ d.total.getD 0 ≤ d.progress.getD 0) := by
  match e with
  | DialogEvent.close => exact Or.inl rfl
  | DialogEvent.receive none =>
    rw [dialogStep, if_pos hOn] at hOff
    rw [handler] at hOff
    exact absurd (hOn ▸ hOff) (by simp)
  | DialogEvent.receive (some d) =>
    refine Or.inr ⟨d, rfl, ?_⟩
    by_cases hc : d.status.getD "" = "done" ∨ d.total.getD 0 ≤ d.progress.getD 0
    · exact hc
    · exfalso
      rw [dialogStep, if_pos hOn] at hOff
      by_cases hm : d.message.getD "" = "" <;>
        simp [handler, hm, hc, hOn] at hOff

/-- C2 witness: hiding the dialog while the listener is live removes it, and
the disjunction reports the close event. -/
theorem listener_removed_only_on_completion_or_close_checked :
    DialogEvent.close = DialogEvent.close ∨
      ∃ d, DialogEvent.close = DialogEvent.receive (some d) ∧
        (d.status.getD "" = "done" ∨ d.total.getD 0 ≤ d.progress.getD 0) :=
  listener_removed_only_on_completion_or_close id ⟨[], true, none⟩
    DialogEvent.close rfl rfl

/-- C4: submitting the dialog with a non-empty CSV value issues exactly one
remote call, to the batch-update method with that CSV value as `args.csv`;
submitting with an empty value issues no call. -/
theorem primary_action_calls_once (csv : String) :
    (csv ≠ "" →
      primary_action csv = [⟨batch_update_method, [("csv", csv)]⟩])
    ∧ primary_action "" = [] := by
  exact ⟨fun h => by simp [primary_action, h], by simp [primary_action]⟩

/-- C4 witness: a concrete non-empty CSV value produces the single call. -/
theorem primary_action_calls_once_checked :
    primary_action "A,1" = [⟨batch_update_method, [("csv", "A,1")]⟩] :=
  (primary_action_calls_once "A,1").1 (by decide)

/-- C5: a non-empty coupon code issues exactly one percent-value lookup with
that code, and a response carrying a message writes its
`percent_value || 0` into `additional_discount_percentage`; an empty code
issues no call and resets the field to 0. -/
theorem coupon_code_sets_discount (frm : SalesOrderForm) (r : PercentResponse) :
    (frm.shopify_coupon_code ≠ "" →
      (shopify_coupon_code_changed frm r).2 =
        [⟨percent_value_method, [("coupon_code", frm.shopify_coupon_code)]⟩]
      ∧ ∀ m, r.message = some m →
          (shopify_coupon_code_changed frm r).1.additional_discount_percentage =
            m.percent_value.getD 0)
    ∧ (frm.shopify_coupon_code = "" →
        (shopify_coupon_code_changed frm r).1.additional_discount_percentage = 0
        ∧ (shopify_coupon_code_changed frm r).2 = []) := by
  constructor
  · intro h
    refine ⟨by simp [shopify_coupon_code_changed, h], fun m hm => ?_⟩
    simp [shopify_coupon_code_changed, h, percent_callback, hm]
  · intro h
    exact ⟨by simp [shopify_coupon_code_changed, h], by simp [shopify_coupon_code_changed, h]⟩

/-- C5 witness: setting code `SAVE10` with a lookup answering 10 percent
makes the one call and writes 10; clearing the code writes 0 silently. -/
theorem coupon_code_sets_discount_checked :
    ((shopify_coupon_code_changed ⟨"SAVE10", 0⟩ ⟨some ⟨some 10⟩⟩).2 =
        [⟨percent_value_method, [("coupon_code", "SAVE10")]⟩]
      ∧ (shopify_coupon_code_changed ⟨"SAVE10", 0⟩
          ⟨some ⟨some 10⟩⟩).1.additional_discount_percentage = 10)
    ∧ ((shopify_coupon_code_changed ⟨"", 10⟩ ⟨none⟩).1.additional_discount_percentage = 0
      ∧ (shopify_coupon_code_changed ⟨"", 10⟩ ⟨none⟩).2 = []) := by
  constructor
  · have h := (coupon_code_sets_discount ⟨"SAVE10", 0⟩ ⟨some ⟨some 10⟩⟩).1 (by decide)
    exact ⟨h.1, h.2 ⟨some 10⟩ rfl⟩
  · exact (coupon_code_sets_discount ⟨"", 10⟩ ⟨none⟩).2 rfl

/-- C8: when the percent-value lookup response has a falsy message, the
callback leaves the form unchanged (in particular the discount field keeps
its old value); when the message is truthy, the discount field is set to its
`percent_value`, or 0 when that subfield is absent, and the coupon code
field is untouched. -/
theorem percent_callback_frame (frm : SalesOrderForm) (r : PercentResponse) :
    (r.message = none → percent_callback frm r = frm)
    ∧ ∀ m, r.message = some m →
        (percent_callback frm r).additional_discount_percentage = m.percent_value.getD 0
        ∧ (percent_callback frm r).shopify_coupon_code = frm.shopify_coupon_code := by
  exact ⟨fun h => by simp [percent_callback, h],
    fun m hm => ⟨by simp [percent_callback, hm], by simp [percent_callback, hm]⟩⟩

/-- C8 witness: an empty response leaves a 7 percent discount at 7; a
response with a message but no `percent_value` writes 0. -/
theorem percent_callback_frame_checked :
    percent_callback ⟨"SAVE10", 7⟩ ⟨none⟩ = ⟨"SAVE10", 7⟩
    ∧ (percent_callback ⟨"SAVE10", 7⟩ ⟨some ⟨none⟩⟩).additional_discount_percentage = 0 := by
  constructor
  · exact (percent_callback_frame ⟨"SAVE10", 7⟩ ⟨none⟩).1 rfl
  · exact ((percent_callback_frame ⟨"SAVE10", 7⟩ ⟨some ⟨none⟩⟩).2 ⟨none⟩ rfl).1

/-- C6: for every response whose message lacks status `success` the callback
shows the error box, and the text shown is the response's truthy specific
error string when one is present, and the generic
`Failed to update coupons.` text when none is. -/
theorem update_coupon_error_fallback (r : UpdateResponse)
    (h : ∀ m, r.message = some m → ¬ m.status = some "success") :
    update_coupon_callback r =
      ShownMessage.errorBox ((specificError r).getD genericCouponError) := by
  match hr : r.message with
  | none => simp [update_coupon_callback, specificError, hr]
  | some m =>
    have hs : ¬ m.status = some "success" := h m hr
    by_cases he : m.error = none
    · simp [update_coupon_callback, specificError, hr, hs, he]
    · obtain ⟨e, he'⟩ := Option.ne_none_iff_exists'.mp he
      by_cases hee : e = ""
      · simp [update_coupon_callback, specificError, hr, hs, he', hee]
      · simp [update_coupon_callback, specificError, hr, hs, he', hee]

/-- C6 witness: a failed response with a specific error shows that error; one
with no message at all shows the generic text. -/
theorem update_coupon_error_fallback_checked :
    update_coupon_callback ⟨some ⟨some "failed", some "Rate limited"⟩⟩ =
      ShownMessage.errorBox "Rate limited"
    ∧ update_coupon_callback ⟨none⟩ =
      ShownMessage.errorBox genericCouponError := by
  constructor
  · exact update_coupon_error_fallback ⟨some ⟨some "failed", some "Rate limited"⟩⟩
      (by intro m hm; cases hm; decide)
  · exact update_coupon_error_fallback ⟨none⟩ (by intro m hm; cases hm)
